import Mathlib

/-!
Shallow embedding of the `ori.poolchain` module (src/ori/poolchain.py) of the
`ori` library, together with proofs about its builder validation, its stage
list invariants, and the semantics of its execution modes.

Modelling conventions:

* Python values passed as the `function` argument are modelled by `PyFunc`:
  what `PoolChain.add` observes about them is whether the attribute lookup
  `function.__name__` succeeds (and its value), and whether the object is
  callable; their call behaviour is a pure Lean function `V → V`.  In Lean
  every such function is pure and side-effect free, which is exactly the
  hypothesis under which the specification states its equivalence claims.
* The `executor_class` argument is modelled by the three observations the
  source makes about it: `isinstance(executor_class, type)`,
  truthiness of `getattr(executor_class, "map", False)`, and equality with
  `concurrent.futures.ProcessPoolExecutor`.
* Exceptions are modelled by `PyError` (`OriValidationError` from
  src/ori/errors.py, and the builtin `AttributeError` that a failed
  `function.__name__` lookup raises).
* Mutation of `self.chain` and the `return self` aliasing are modelled by
  explicit state passing: a `PoolChain` carries an object identity `self`
  (a heap address) next to its `chain` list, and `PoolChain.add` returns
  both the post-state of the receiver and the raised error or the identity
  of the returned object.
* `PoolChain.execute_lazy` contains `yield`, so in CPython calling it runs
  none of its body and returns a suspended generator; the call is modelled
  as the total constructor of a `LazyGen`, and iterating the generator to
  exhaustion is `LazyGen.run`, which reports the produced elements, an
  event trace (pool creations, yields, pool shutdowns, in the order the
  body performs them) and the state of a pool-address allocator used to
  model freshness of pools across invocations.
* `Executor.map` is modelled as the order-preserving `List.map` of the
  stage function (the `concurrent.futures` primitive documents that it
  yields results in input order), under the assumption that no stage
  function raises and no per-item timeout expires.
-/

namespace Ori

/-- Model of a Python object passed as the `function` argument of
`PoolChain.add`: the source only observes the `__name__` attribute
(`name = none` models an object without one, e.g. `None` or a
`functools.partial` object), callability, and — when a stored stage is
executed — the object's behaviour under application. -/
structure PyFunc (V : Type) where
  name : Option String
  isCallable : Bool
  apply : V → V

/-- Model of a Python object passed as the `executor_class` argument of
`PoolChain.add`: the three observations made by the source are
`isinstance(executor_class, type)`, truthiness of
`getattr(executor_class, "map", False)`, and equality with
`concurrent.futures.ProcessPoolExecutor`. -/
structure ExecutorClassArg where
  isType : Bool
  hasMap : Bool
  isProcessPool : Bool
deriving DecidableEq

/-- The class `concurrent.futures.ThreadPoolExecutor`. -/
def ThreadPoolExecutor : ExecutorClassArg :=
  { isType := true, hasMap := true, isProcessPool := false }

/-- The class `concurrent.futures.ProcessPoolExecutor`. -/
def ProcessPoolExecutor : ExecutorClassArg :=
  { isType := true, hasMap := true, isProcessPool := true }

/-- Model of a Python value passed for the `max_workers` or `timeout`
keyword (besides `None`, which is modelled by `Option.none` around this
type): either an `int`, or some non-`None` value that is not an `int`. -/
inductive PyIntArg
  | int (n : Int)
  | nonInt
deriving DecidableEq

/-- Exceptions raised by the modelled code: `OriValidationError` from
src/ori/errors.py, and the builtin `AttributeError` raised by the failed
attribute lookup `function.__name__` on line 120 of src/ori/poolchain.py
when the object has no such attribute. -/
inductive PyError
  | validationError (msg : String)
  | attributeError (msg : String)
deriving DecidableEq

/-- Decides whether a result models a raised `OriValidationError`. -/
def isValidationErrorResult {α : Type} : Except PyError α → Bool
  | Except.error (PyError.validationError _) => true
  | _ => false

/-- The `_ChainElement` named tuple of src/ori/poolchain.py: one element of
the poolchain, carrying the function, the executor class and the limits it
was registered with. -/
structure _ChainElement (V : Type) where
  function : PyFunc V
  executor_class : ExecutorClassArg
  max_workers : Option PyIntArg
  timeout : Option PyIntArg
  chunksize : Int

/-- The `PoolChain` object: `self` is the object identity (heap address,
modelling `return self` aliasing) and `chain` is the state of the
`self.chain` list. A fresh `PoolChain()` has an empty chain. -/
structure PoolChain (V : Type) where
  self : Nat
  chain : List (_ChainElement V)

/-- Outcome of a call to `PoolChain.add`: the state of the receiver after
the call (Python exceptions leave `self.chain` untouched), and either the
raised error or the identity of the returned object. -/
structure AddOutcome (V : Type) where
  postSelf : PoolChain V
  result : Except PyError Nat

/-- Direct translation of `PoolChain.add` (src/ori/poolchain.py lines
109–153).  The checks appear in source order: `isinstance(executor_class,
type)`; `getattr(executor_class, "map", False)`; the lookup
`function.__name__` (an `AttributeError` escapes here if the object has no
`__name__`) compared with `"<lambda>"` together with `executor_class ==
ProcessPoolExecutor`; then `max_workers` and `timeout` must each be `None`
or an `int` that is at least 1.  Note that `chunksize` is never validated
and that callability of `function` is never checked.  On success a new
`_ChainElement` carrying exactly the given arguments is appended to
`self.chain` and `self` is returned. -/
def PoolChain.add {V : Type} (p : PoolChain V) (function : PyFunc V)
    (executor_class : ExecutorClassArg) (max_workers : Option PyIntArg)
    (timeout : Option PyIntArg) (chunksize : Int) : AddOutcome V :=
  let finish : AddOutcome V :=
    { postSelf := { self := p.self
                    chain := p.chain ++ [{ function := function
                                           executor_class := executor_class
                                           max_workers := max_workers
                                           timeout := timeout
                                           chunksize := chunksize }] }
      result := Except.ok p.self }
  let checkTimeout : AddOutcome V :=
    match timeout with
    | none => finish
    | some PyIntArg.nonInt =>
        { postSelf := p
          result := Except.error
            (PyError.validationError "Timeout should be None or an integer.") }
    | some (PyIntArg.int n) =>
        if n < 1 then
          { postSelf := p
            result := Except.error
              (PyError.validationError
                "Timeout should be None or an integer greater than 0.") }
        else finish
  let checkMaxWorkers : AddOutcome V :=
    match max_workers with
    | none => checkTimeout
    | some PyIntArg.nonInt =>
        { postSelf := p
          result := Except.error
            (PyError.validationError
              "The max_workers argument should be an int or None.") }
    | some (PyIntArg.int n) =>
        if n < 1 then
          { postSelf := p
            result := Except.error
              (PyError.validationError "You need to define one or more worker.") }
        else checkTimeout
  if executor_class.isType = false then
    { postSelf := p
      result := Except.error
        (PyError.validationError
          "For the executor_class argument, you should pass a Python class. Did you pass a Python instance instead?") }
  else if executor_class.hasMap = false then
    { postSelf := p
      result := Except.error
        (PyError.validationError
          "Your executor_class needs to implement the .map method. It looks like it does not.") }
  else
    match function.name with
    | none =>
        { postSelf := p
          result := Except.error
            (PyError.attributeError "object has no attribute __name__") }
    | some nm =>
        if nm = "<lambda>" ∧ executor_class.isProcessPool = true then
          { postSelf := p
            result := Except.error
              (PyError.validationError
                "You cannot use lambda functions with ProcessPoolExecutor. Define a named function with the def keyword instead.") }
        else checkMaxWorkers

/-- `PoolChain.add_threadpool` (src/ori/poolchain.py lines 155–189):
delegates to `add` with `ThreadPoolExecutor` and the default
`chunksize=1`. -/
def PoolChain.add_threadpool {V : Type} (p : PoolChain V) (function : PyFunc V)
    (max_workers : Option PyIntArg) (timeout : Option PyIntArg) : AddOutcome V :=
  PoolChain.add p function ThreadPoolExecutor max_workers timeout 1

/-- `PoolChain.add_processpool` (src/ori/poolchain.py lines 191–237):
delegates to `add` with `ProcessPoolExecutor`. -/
def PoolChain.add_processpool {V : Type} (p : PoolChain V) (function : PyFunc V)
    (max_workers : Option PyIntArg) (timeout : Option PyIntArg)
    (chunksize : Int) : AddOutcome V :=
  PoolChain.add p function ProcessPoolExecutor max_workers timeout chunksize

/-- Events observable while the body of the `execute_lazy` generator runs:
creation of the pool for a stage (`executor_class(max_workers=...)`, the
pool identified by the heap address `pid`), the yield of the output element
at position `i`, and `executor.shutdown(wait=...)` of a pool. -/
inductive Event
  | createPool (pid : Nat) (stage : Nat)
  | yieldOut (i : Nat)
  | shutdown (pid : Nat) (wait : Bool)
deriving DecidableEq

/-- A suspended generator returned by calling `PoolChain.execute_lazy`:
CPython runs none of the body of a generator function at call time, so the
call only packages the receiver and the argument. -/
structure LazyGen (V : Type) where
  poolchain : PoolChain V
  iterable : List V

/-- Calling `PoolChain.execute_lazy` (src/ori/poolchain.py lines 239–266).
The body contains `yield item`, so the function is a generator function:
the call itself executes no statement of the body — in particular it does
not raise, whatever the state of `self.chain` — and returns a suspended
generator. -/
def PoolChain.execute_lazy {V : Type} (p : PoolChain V) (iterable : List V) :
    LazyGen V :=
  { poolchain := p, iterable := iterable }

/-- Result of iterating an `execute_lazy` generator to exhaustion: the
yielded elements (or the exception that escaped), the event trace of the
body, and the post-state of the pool-address allocator (fresh pool
addresses are drawn from a counter, so that distinct invocations create
disjoint sets of pools). -/
structure RunResult (V : Type) where
  result : Except PyError (List V)
  trace : List Event
  alloc : Nat

/-- Sequential composition of the stage functions of a chain in declaration
order, applied to one element: the inner loop of
`execute_lazy_single_threaded` (src/ori/poolchain.py lines 308–312). -/
def stageComposition {V : Type} (chain : List (_ChainElement V)) (item : V) : V :=
  chain.foldl (fun current_val element => element.function.apply current_val) item

/-- Iterating the `execute_lazy` generator to exhaustion (the body of
src/ori/poolchain.py lines 249–266, which runs only once the generator is
first advanced).  If `len(self.chain) < 1` the body raises
`OriValidationError` at once: no pool has been created, nothing was yielded,
and the input iterable was never consumed (the result does not depend on
it).  Otherwise the body creates one fresh pool per stage in declaration
order, chains `executor.map` (modelled as the order-preserving `List.map`)
across them, yields every element of the final iterable, and then shuts
every created pool down with `wait=True` before the iteration completes. -/
def LazyGen.run {V : Type} (g : LazyGen V) (alloc : Nat) : RunResult V :=
  if g.poolchain.chain.length < 1 then
    { result := Except.error
        (PyError.validationError "Try adding some workers first.")
      trace := []
      alloc := alloc }
  else
    let n := g.poolchain.chain.length
    let outs := g.poolchain.chain.foldl
      (fun current_iterable element => current_iterable.map element.function.apply)
      g.iterable
    { result := Except.ok outs
      trace :=
        ((List.range n).map (fun s => Event.createPool (alloc + s) s))
          ++ ((List.range outs.length).map (fun i => Event.yieldOut i))
          ++ ((List.range n).map (fun s => Event.shutdown (alloc + s) true))
      alloc := alloc + n }

/-- `PoolChain.execute_eager` (src/ori/poolchain.py lines 268–283):
`list(self.execute_lazy(iterable))`, i.e. the generator returned by the
call is drained to exhaustion and any exception escaping it propagates. -/
def PoolChain.execute_eager {V : Type} (p : PoolChain V) (iterable : List V)
    (alloc : Nat) : Except PyError (List V) :=
  ((PoolChain.execute_lazy p iterable).run alloc).result

/-- `PoolChain.execute_lazy_single_threaded` (src/ori/poolchain.py lines
285–312): a generator that, for each input element in order, runs the
element through every chain function in declaration order in the current
thread and yields the result.  There is no validation and no pool; an empty
chain leaves every element unchanged.  The list collects the yields of the
generator in order. -/
def PoolChain.execute_lazy_single_threaded {V : Type} (p : PoolChain V)
    (iterable : List V) : List V :=
  iterable.map (fun item => stageComposition p.chain item)

/-- `PoolChain.execute_eager_single_threaded` (src/ori/poolchain.py lines
314–335): `list(self.execute_lazy_single_threaded(iterable))`. -/
def PoolChain.execute_eager_single_threaded {V : Type} (p : PoolChain V)
    (iterable : List V) : List V :=
  PoolChain.execute_lazy_single_threaded p iterable

/-- A `max_workers` or `timeout` value accepted by the validation in
`PoolChain.add`: absent, or an integer that is at least 1. -/
def limitOk : Option PyIntArg → Prop
  | none => True
  | some (PyIntArg.int n) => 1 ≤ n
  | some PyIntArg.nonInt => False

/-- A `max_workers` or `timeout` value rejected by the validation in
`PoolChain.add`: present but not an integer, or an integer below 1. -/
def badLimit : Option PyIntArg → Prop
  | none => False
  | some (PyIntArg.int n) => n < 1
  | some PyIntArg.nonInt => True

/-- The stage invariant claimed by the specification for every stored
stage: `max_workers` and `timeout`, when present, are integers that are at
least 1, and `chunk_size` is at least 1. -/
def StageInvariantClaim {V : Type} (e : _ChainElement V) : Prop :=
  limitOk e.max_workers ∧ limitOk e.timeout ∧ 1 ≤ e.chunksize

/-- The `PoolChain` states reachable from a fresh `PoolChain()` by any
sequence of `add` / `add_threadpool` / `add_processpool` calls.  A call
that raises leaves the receiver state unchanged (`postSelf` is the
receiver), so including failed calls subsumes the sequences of successful
calls named by the specification. -/
inductive Reachable {V : Type} : PoolChain V → Prop
  | init (n : Nat) : Reachable { self := n, chain := [] }
  | step_add (p : PoolChain V) (f : PyFunc V) (ec : ExecutorClassArg)
      (mw t : Option PyIntArg) (cs : Int) :
      Reachable p → Reachable (PoolChain.add p f ec mw t cs).postSelf
  | step_add_threadpool (p : PoolChain V) (f : PyFunc V)
      (mw t : Option PyIntArg) :
      Reachable p → Reachable (PoolChain.add_threadpool p f mw t).postSelf
  | step_add_processpool (p : PoolChain V) (f : PyFunc V)
      (mw t : Option PyIntArg) (cs : Int) :
      Reachable p → Reachable (PoolChain.add_processpool p f mw t cs).postSelf

/-- A named def-style function, as used in tests and witnesses. -/
def unitFn : PyFunc Unit :=
  { name := some "f", isCallable := true, apply := fun v => v }

/-- A lambda: its `__name__` attribute is the string `"<lambda>"`. -/
def lambdaFn : PyFunc Unit :=
  { name := some "<lambda>", isCallable := true, apply := fun v => v }

/-- A callable object without a `__name__` attribute, such as a
`functools.partial` object. -/
def noNameFn : PyFunc Unit :=
  { name := none, isCallable := true, apply := fun v => v }

/-- The value `None`: not callable and without a `__name__` attribute. -/
def noneObj : PyFunc Unit :=
  { name := none, isCallable := false, apply := fun v => v }

/-- A non-callable object that does have a `__name__` attribute, such as an
imported module object. -/
def moduleObj : PyFunc Unit :=
  { name := some "math", isCallable := false, apply := fun v => v }

/-- A fresh `PoolChain()` at heap address 0. -/
def emptyPoolChain : PoolChain Unit := { self := 0, chain := [] }

/-- A poolchain with a single thread-pool stage. -/
def onePC : PoolChain Unit :=
  { self := 0
    chain := [{ function := unitFn, executor_class := ThreadPoolExecutor,
                max_workers := none, timeout := none, chunksize := 1 }] }

/-- Case analysis on `PoolChain.add`: every call either raises an
`AttributeError` (exactly when the `function` object has no `__name__`
attribute and the two `executor_class` checks passed), raises an
`OriValidationError`, or succeeds; failure leaves the receiver untouched,
and success happens only with validated limits and appends exactly the
given stage, returning the receiver itself. -/
lemma add_cases {V : Type} (p : PoolChain V) (f : PyFunc V)
    (ec : ExecutorClassArg) (mw t : Option PyIntArg) (cs : Int) :
    (f.name = none ∧ ec.isType = true ∧ ec.hasMap = true ∧
       PoolChain.add p f ec mw t cs =
         { postSelf := p
           result := Except.error
             (PyError.attributeError "object has no attribute __name__") })
    ∨ (∃ m, PoolChain.add p f ec mw t cs =
         { postSelf := p
           result := Except.error (PyError.validationError m) })
    ∨ (limitOk mw ∧ limitOk t ∧ f.name ≠ none ∧
       PoolChain.add p f ec mw t cs =
         { postSelf := { self := p.self
                         chain := p.chain ++
                           [{ function := f, executor_class := ec,
                              max_workers := mw, timeout := t,
                              chunksize := cs }] }
           result := Except.ok p.self }) := by
  cases h1 : ec.isType with
  | false =>
      exact Or.inr (Or.inl
        ⟨"For the executor_class argument, you should pass a Python class. Did you pass a Python instance instead?",
         by simp [PoolChain.add, h1]⟩)
  | true =>
  cases h2 : ec.hasMap with
  | false =>
      exact Or.inr (Or.inl
        ⟨"Your executor_class needs to implement the .map method. It looks like it does not.",
         by simp [PoolChain.add, h1, h2]⟩)
  | true =>
  cases hn : f.name with
  | none => exact Or.inl ⟨rfl, rfl, rfl, by simp [PoolChain.add, h1, h2, hn]⟩
  | some nm =>
  by_cases hl : nm = "<lambda>" ∧ ec.isProcessPool = true
  · exact Or.inr (Or.inl
      ⟨"You cannot use lambda functions with ProcessPoolExecutor. Define a named function with the def keyword instead.",
       by simp [PoolChain.add, h1, h2, hn, hl]⟩)
  · cases mw with
    | some a =>
      cases a with
      | nonInt =>
          exact Or.inr (Or.inl
            ⟨"The max_workers argument should be an int or None.",
             by simp [PoolChain.add, h1, h2, hn, hl]⟩)
      | int k =>
        by_cases hk : k < 1
        · exact Or.inr (Or.inl
            ⟨"You need to define one or more worker.",
             by simp [PoolChain.add, h1, h2, hn, hl, hk]⟩)
        · cases t with
          | none =>
              refine Or.inr (Or.inr ⟨?_, trivial, by simp [hn], ?_⟩)
              · show 1 ≤ k
                omega
              · simp [PoolChain.add, h1, h2, hn, hl, hk]
          | some b =>
            cases b with
            | nonInt =>
                exact Or.inr (Or.inl
                  ⟨"Timeout should be None or an integer.",
                   by simp [PoolChain.add, h1, h2, hn, hl, hk]⟩)
            | int j =>
              by_cases hj : j < 1
              · exact Or.inr (Or.inl
                  ⟨"Timeout should be None or an integer greater than 0.",
                   by simp [PoolChain.add, h1, h2, hn, hl, hk, hj]⟩)
              · refine Or.inr (Or.inr ⟨?_, ?_, by simp [hn], ?_⟩)
                · show 1 ≤ k
                  omega
                · show 1 ≤ j
                  omega
                · simp [PoolChain.add, h1, h2, hn, hl, hk, hj]
    | none =>
      cases t with
      | none =>
          exact Or.inr (Or.inr ⟨trivial, trivial, by simp [hn],
            by simp [PoolChain.add, h1, h2, hn, hl]⟩)
      | some b =>
        cases b with
        | nonInt =>
            exact Or.inr (Or.inl
              ⟨"Timeout should be None or an integer.",
               by simp [PoolChain.add, h1, h2, hn, hl]⟩)
        | int j =>
          by_cases hj : j < 1
          · exact Or.inr (Or.inl
              ⟨"Timeout should be None or an integer greater than 0.",
               by simp [PoolChain.add, h1, h2, hn, hl, hj]⟩)
          · refine Or.inr (Or.inr ⟨trivial, ?_, by simp [hn], ?_⟩)
            · show 1 ≤ j
              omega
            · simp [PoolChain.add, h1, h2, hn, hl, hj]

/-- Chaining the order-preserving pool maps of the stages over an input
list computes, element by element, the sequential composition of the stage
functions in declaration order. -/
lemma foldl_map_eq_map_comp {V : Type} (chain : List (_ChainElement V))
    (xs : List V) :
    chain.foldl
        (fun current_iterable element =>
          current_iterable.map element.function.apply) xs
      = xs.map (fun item => stageComposition chain item) := by
  induction chain generalizing xs with
  | nil => simp [stageComposition]
  | cons c cs ih =>
      simp only [List.foldl_cons]
      rw [ih (xs.map c.function.apply), List.map_map]
      apply List.map_congr_left
      intro a _
      simp [stageComposition, List.foldl_cons]

/-- Advancing the `execute_lazy` generator of a chain with no stages: the
body raises `OriValidationError` immediately, with no pool created, nothing
yielded, and the allocator untouched; the outcome does not depend on the
input iterable. -/
lemma run_eq_of_nil {V : Type} (p : PoolChain V) (xs : List V) (c : Nat)
    (h : p.chain = []) :
    (PoolChain.execute_lazy p xs).run c =
      { result := Except.error
          (PyError.validationError "Try adding some workers first.")
        trace := []
        alloc := c } := by
  simp [LazyGen.run, PoolChain.execute_lazy, h]

/-- Iterating the `execute_lazy` generator of a chain with at least one
stage to exhaustion: the outputs are the stage composition mapped over the
input, and the trace is the pool creations (one fresh pool per stage, in
declaration order), then the yields, then one `shutdown(wait=True)` per
created pool, with the allocator advanced past every created pool. -/
lemma run_eq_of_ne_nil {V : Type} (p : PoolChain V) (xs : List V) (c : Nat)
    (hc : p.chain ≠ []) :
    (PoolChain.execute_lazy p xs).run c =
      { result := Except.ok (xs.map (fun item => stageComposition p.chain item))
        trace :=
          ((List.range p.chain.length).map (fun s => Event.createPool (c + s) s))
            ++ ((List.range xs.length).map (fun i => Event.yieldOut i))
            ++ ((List.range p.chain.length).map
                  (fun s => Event.shutdown (c + s) true))
        alloc := c + p.chain.length } := by
  have h1 : ¬ p.chain.length < 1 := by
    simpa [Nat.lt_one_iff, List.length_eq_zero] using hc
  simp [LazyGen.run, PoolChain.execute_lazy, h1, foldl_map_eq_map_comp]

/-- Every pool creation recorded in a run of the `execute_lazy` generator
is of a pool at a fresh address drawn from the allocator, one per stage. -/
lemma createPool_mem_run_trace {V : Type} (q : PoolChain V) (ys : List V)
    (c0 pid s : Nat)
    (h : Event.createPool pid s ∈ ((PoolChain.execute_lazy q ys).run c0).trace) :
    pid = c0 + s ∧ s < q.chain.length := by
  by_cases hq : q.chain = []
  · rw [run_eq_of_nil q ys c0 hq] at h
    simp at h
  · rw [run_eq_of_ne_nil q ys c0 hq] at h
    simp only [List.mem_append, List.mem_map, List.mem_range] at h
    rcases h with (⟨a, ha, hev⟩ | ⟨a, _, hev⟩) | ⟨a, _, hev⟩
    · obtain ⟨hpid, hs⟩ := Event.createPool.inj hev
      subst hs
      exact ⟨hpid.symm, by omega⟩
    · exact absurd hev (by simp)
    · exact absurd hev (by simp)

/-- A limit value rejected by `PoolChain.add` is not an accepted one. -/
lemma badLimit_not_limitOk : ∀ (o : Option PyIntArg), badLimit o → ¬ limitOk o
  | none, h => absurd h (by simp [badLimit])
  | some PyIntArg.nonInt, _ => by simp [limitOk]
  | some (PyIntArg.int n), h => by
      simp only [badLimit] at h
      simp only [limitOk]
      omega

/-- One `add` call preserves the limit part of the stage invariant. -/
lemma add_preserves_limits {V : Type} (q : PoolChain V) (f : PyFunc V)
    (ec : ExecutorClassArg) (mw t : Option PyIntArg) (cs : Int)
    (ih : ∀ e ∈ q.chain, limitOk e.max_workers ∧ limitOk e.timeout) :
    ∀ e ∈ (PoolChain.add q f ec mw t cs).postSelf.chain,
      limitOk e.max_workers ∧ limitOk e.timeout := by
  intro e he
  rcases add_cases q f ec mw t cs with ⟨_, _, _, heq⟩ | ⟨m, heq⟩ | ⟨hmw, ht, _, heq⟩
  · rw [heq] at he
    exact ih e he
  · rw [heq] at he
    exact ih e he
  · rw [heq] at he
    simp only [List.mem_append, List.mem_singleton] at he
    rcases he with he | he
    · exact ih e he
    · subst he
      exact ⟨hmw, ht⟩

/-- Claim C4: `add` with `ProcessPoolExecutor` (equivalently
`add_processpool`) and a function whose `__name__` is `"<lambda>"` — the
way an anonymous `lambda` presents itself to the check on lines 119–126 of
src/ori/poolchain.py — raises `OriValidationError` and leaves the stage
list (indeed the whole receiver state) unchanged. -/
theorem C4_lambda_process_pool_rejected {V : Type} (p : PoolChain V)
    (f : PyFunc V) (mw t : Option PyIntArg) (cs : Int)
    (hl : f.name = some "<lambda>") :
    ((PoolChain.add p f ProcessPoolExecutor mw t cs).result
        = Except.error (PyError.validationError
            "You cannot use lambda functions with ProcessPoolExecutor. Define a named function with the def keyword instead.")
      ∧ (PoolChain.add p f ProcessPoolExecutor mw t cs).postSelf = p)
    ∧ ((PoolChain.add_processpool p f mw t cs).result
        = Except.error (PyError.validationError
            "You cannot use lambda functions with ProcessPoolExecutor. Define a named function with the def keyword instead.")
      ∧ (PoolChain.add_processpool p f mw t cs).postSelf = p) := by
  refine ⟨⟨?_, ?_⟩, ?_, ?_⟩ <;>
    simp [PoolChain.add, PoolChain.add_processpool, ProcessPoolExecutor, hl]

/-- Witness for C4 at a concrete lambda. -/
theorem C4_witness :
    lambdaFn.name = some "<lambda>"
      ∧ (((PoolChain.add emptyPoolChain lambdaFn ProcessPoolExecutor none none 1).result
          = Except.error (PyError.validationError
              "You cannot use lambda functions with ProcessPoolExecutor. Define a named function with the def keyword instead.")
        ∧ (PoolChain.add emptyPoolChain lambdaFn ProcessPoolExecutor none none 1).postSelf
          = emptyPoolChain)
      ∧ ((PoolChain.add_processpool emptyPoolChain lambdaFn none none 1).result
          = Except.error (PyError.validationError
              "You cannot use lambda functions with ProcessPoolExecutor. Define a named function with the def keyword instead.")
        ∧ (PoolChain.add_processpool emptyPoolChain lambdaFn none none 1).postSelf
          = emptyPoolChain)) :=
  ⟨rfl, C4_lambda_process_pool_rejected emptyPoolChain lambdaFn none none 1 rfl⟩

/-- Claim C5 as stated is refuted: `add` called with a callable `function`
object that has no `__name__` attribute (for example a `functools.partial`
object) and `max_workers=0` raises the builtin `AttributeError` at the
`function.__name__` lookup (line 120 of src/ori/poolchain.py) — it does not
fail with an `OriValidationError`. -/
theorem C5_counterexample :
    isValidationErrorResult
        (PoolChain.add emptyPoolChain noNameFn ThreadPoolExecutor
          (some (PyIntArg.int 0)) none 1).result = false
      ∧ (PoolChain.add emptyPoolChain noNameFn ThreadPoolExecutor
          (some (PyIntArg.int 0)) none 1).result
        = Except.error (PyError.attributeError "object has no attribute __name__") :=
  ⟨rfl, rfl⟩

/-- Claim C5 (amended): for every call to `add` whose `function` argument
has a `__name__` attribute (every `def`-defined function and every lambda
does), if `max_workers` is provided and is not an integer that is at least
1, or `timeout` is provided and is not an integer that is at least 1, the
call fails with an `OriValidationError`; in particular `max_workers=0` and
`max_workers=-1` are rejected this way. -/
theorem C5_bad_limits_rejected {V : Type} (p : PoolChain V) (f : PyFunc V)
    (ec : ExecutorClassArg) (mw t : Option PyIntArg) (cs : Int) (nm : String)
    (hn : f.name = some nm) (hb : badLimit mw ∨ badLimit t) :
    isValidationErrorResult (PoolChain.add p f ec mw t cs).result = true := by
  rcases add_cases p f ec mw t cs with ⟨hnone, _⟩ | ⟨m, heq⟩ | ⟨hmw, ht, _, _⟩
  · rw [hn] at hnone
    cases hnone
  · rw [heq]
    rfl
  · exfalso
    rcases hb with hb | hb
    · exact badLimit_not_limitOk mw hb hmw
    · exact badLimit_not_limitOk t hb ht

/-- Witness for C5 at `max_workers=0` with a named function. -/
theorem C5_witness :
    unitFn.name = some "f"
      ∧ (badLimit (some (PyIntArg.int 0)) ∨ badLimit (none : Option PyIntArg))
      ∧ isValidationErrorResult
          (PoolChain.add emptyPoolChain unitFn ThreadPoolExecutor
            (some (PyIntArg.int 0)) none 1).result = true :=
  ⟨rfl, Or.inl (by simp [badLimit]),
   C5_bad_limits_rejected emptyPoolChain unitFn ThreadPoolExecutor
     (some (PyIntArg.int 0)) none 1 "f" rfl (Or.inl (by simp [badLimit]))⟩

/-- Claim C6 (code bug): `add` never checks that `function` is callable.
Passing `None` raises the builtin `AttributeError` (not the
`OriValidationError` promised by the docstring of `add`), and a
non-callable object that happens to have a `__name__` attribute (such as an
imported module) is accepted and stored in the chain, so stored stages need
not carry a callable function. -/
theorem C6_no_callable_check :
    (PoolChain.add emptyPoolChain noneObj ThreadPoolExecutor none none 1).result
        = Except.error (PyError.attributeError "object has no attribute __name__")
      ∧ isValidationErrorResult
          (PoolChain.add emptyPoolChain noneObj ThreadPoolExecutor none none 1).result
        = false
      ∧ (PoolChain.add emptyPoolChain moduleObj ThreadPoolExecutor none none 1).result
        = Except.ok 0
      ∧ ((PoolChain.add emptyPoolChain moduleObj ThreadPoolExecutor
            none none 1).postSelf.chain.map (fun e => e.function.isCallable))
        = [false] :=
  ⟨rfl, rfl, rfl, rfl⟩

/-- Claim C7 as stated is refuted: `chunksize` is never validated by `add`,
so a successful `add` with `chunksize=0` stores a stage whose chunk size is
below 1 in a reachable poolchain. -/
theorem C7_counterexample :
    ¬ (∀ (p : PoolChain Unit), Reachable p → ∀ e ∈ p.chain, StageInvariantClaim e) := by
  intro h
  have hre : Reachable
      (PoolChain.add emptyPoolChain unitFn ThreadPoolExecutor none none 0).postSelf :=
    Reachable.step_add emptyPoolChain unitFn ThreadPoolExecutor none none 0
      (Reachable.init 0)
  have hmem : ({ function := unitFn, executor_class := ThreadPoolExecutor,
                 max_workers := none, timeout := none, chunksize := 0 }
        : _ChainElement Unit)
      ∈ (PoolChain.add emptyPoolChain unitFn ThreadPoolExecutor
          none none 0).postSelf.chain := by
    simp [PoolChain.add, emptyPoolChain, ThreadPoolExecutor, unitFn]
  obtain ⟨_, _, hcs⟩ := h _ hre _ hmem
  exact absurd hcs (by norm_num)

/-- Claim C7 (amended): every stage of every poolchain reachable by `add` /
`add_threadpool` / `add_processpool` calls has `max_workers`, when present,
an integer at least 1 and `timeout`, when present, an integer at least 1.
(The claimed `chunk_size ≥ 1` clause fails, see `C7_counterexample`.) -/
theorem C7_reachable_stage_limits {V : Type} (p : PoolChain V)
    (h : Reachable p) :
    ∀ e ∈ p.chain, limitOk e.max_workers ∧ limitOk e.timeout := by
  induction h with
  | init n =>
      intro e he
      cases he
  | step_add q f ec mw t cs _ ih =>
      exact add_preserves_limits q f ec mw t cs ih
  | step_add_threadpool q f mw t _ ih =>
      exact add_preserves_limits q f ThreadPoolExecutor mw t 1 ih
  | step_add_processpool q f mw t cs _ ih =>
      exact add_preserves_limits q f ProcessPoolExecutor mw t cs ih

/-- Witness for C7 on a concretely built poolchain. -/
theorem C7_witness :
    Reachable (PoolChain.add emptyPoolChain unitFn ThreadPoolExecutor
        (some (PyIntArg.int 2)) none 1).postSelf
      ∧ ∀ e ∈ (PoolChain.add emptyPoolChain unitFn ThreadPoolExecutor
          (some (PyIntArg.int 2)) none 1).postSelf.chain,
          limitOk e.max_workers ∧ limitOk e.timeout :=
  ⟨Reachable.step_add emptyPoolChain unitFn ThreadPoolExecutor
      (some (PyIntArg.int 2)) none 1 (Reachable.init 0),
   C7_reachable_stage_limits _
     (Reachable.step_add emptyPoolChain unitFn ThreadPoolExecutor
       (some (PyIntArg.int 2)) none 1 (Reachable.init 0))⟩

/-- Claim C8: a successful `add` appends exactly one stage carrying the
given function, executor class, `max_workers`, `timeout` and `chunksize`
at the end of the stage list, keeps every previously added stage unchanged
and in order (the old list is a prefix), and returns the very object it was
invoked on. -/
theorem C8_add_appends_and_returns_self {V : Type} (p : PoolChain V)
    (f : PyFunc V) (ec : ExecutorClassArg) (mw t : Option PyIntArg) (cs : Int)
    (r : Nat) (h : (PoolChain.add p f ec mw t cs).result = Except.ok r) :
    r = p.self
      ∧ (PoolChain.add p f ec mw t cs).postSelf.self = p.self
      ∧ (PoolChain.add p f ec mw t cs).postSelf.chain
        = p.chain ++ [{ function := f, executor_class := ec, max_workers := mw,
                        timeout := t, chunksize := cs }] := by
  rcases add_cases p f ec mw t cs with ⟨_, _, _, heq⟩ | ⟨m, heq⟩ | ⟨_, _, _, heq⟩
  · rw [heq] at h
    cases h
  · rw [heq] at h
    cases h
  · rw [heq] at h
    rw [heq]
    exact ⟨(Except.ok.inj h).symm, rfl, rfl⟩

/-- Witness for C8 at a concrete successful call. -/
theorem C8_witness :
    (PoolChain.add emptyPoolChain unitFn ThreadPoolExecutor none none 1).result
        = Except.ok 0
      ∧ ((0 : Nat) = emptyPoolChain.self
        ∧ (PoolChain.add emptyPoolChain unitFn ThreadPoolExecutor
            none none 1).postSelf.self = emptyPoolChain.self
        ∧ (PoolChain.add emptyPoolChain unitFn ThreadPoolExecutor
            none none 1).postSelf.chain
          = emptyPoolChain.chain ++
              [{ function := unitFn, executor_class := ThreadPoolExecutor,
                 max_workers := none, timeout := none, chunksize := 1 }]) :=
  ⟨rfl, C8_add_appends_and_returns_self emptyPoolChain unitFn ThreadPoolExecutor
    none none 1 0 rfl⟩

/-- Claim C1: for every non-empty input and every poolchain with a
non-empty stage list, `execute_eager` returns the same ordered list as
`execute_eager_single_threaded`.  Stage functions in this embedding are
Lean functions, hence automatically pure and side-effect-free, which is the
purity hypothesis of the claim. -/
theorem C1_execute_eager_equiv_single_threaded {V : Type} (p : PoolChain V)
    (xs : List V) (c : Nat) (_hxs : xs ≠ []) (hc : p.chain ≠ []) :
    PoolChain.execute_eager p xs c
      = Except.ok (PoolChain.execute_eager_single_threaded p xs) := by
  unfold PoolChain.execute_eager
  rw [run_eq_of_ne_nil p xs c hc]
  rfl

/-- Witness for C1 on a one-stage poolchain. -/
theorem C1_witness :
    ([()] : List Unit) ≠ []
      ∧ onePC.chain ≠ []
      ∧ PoolChain.execute_eager onePC [()] 0
        = Except.ok (PoolChain.execute_eager_single_threaded onePC [()]) :=
  ⟨by simp, by simp [onePC],
   C1_execute_eager_equiv_single_threaded onePC [()] 0 (by simp) (by simp [onePC])⟩

/-- Claim C2: over a non-empty stage list (each pool map modelled as the
order-preserving `List.map`, which is the claim's assumption on the pool
primitive), the `i`-th element of the output of the `execute_lazy`
generator is the composition of the stage functions in declaration order
applied to the `i`-th input element, and the output has the same length as
the input: output order equals input order end to end. -/
theorem C2_execute_lazy_order_preserving {V : Type} (p : PoolChain V)
    (xs : List V) (c i : Nat) (hc : p.chain ≠ []) (hi : i < xs.length) :
    ∃ ys, ((PoolChain.execute_lazy p xs).run c).result = Except.ok ys
      ∧ ys.length = xs.length
      ∧ ys[i]? = some (stageComposition p.chain (xs.get ⟨i, hi⟩)) := by
  refine ⟨xs.map (fun item => stageComposition p.chain item), ?_, by simp, ?_⟩
  · rw [run_eq_of_ne_nil p xs c hc]
  · rw [List.getElem?_map, List.getElem?_eq_getElem hi]
    rfl

/-- Witness for C2 on a one-stage poolchain at index 0. -/
theorem C2_witness :
    onePC.chain ≠ []
      ∧ (0 : Nat) < ([(), ()] : List Unit).length
      ∧ ∃ ys, ((PoolChain.execute_lazy onePC [(), ()]).run 0).result = Except.ok ys
          ∧ ys.length = ([(), ()] : List Unit).length
          ∧ ys[0]? = some (stageComposition onePC.chain
              (([(), ()] : List Unit).get ⟨0, by simp⟩)) :=
  ⟨by simp [onePC], by simp,
   C2_execute_lazy_order_preserving onePC [(), ()] 0 0 (by simp [onePC]) (by simp)⟩

/-- Claim C3 (code bug): `execute_lazy` is a generator function (its body
contains `yield`), so calling it on a poolchain with zero stages raises
nothing and returns a suspended generator; the `OriValidationError` the
claim requires "synchronously at the call" is raised only when the
generator is first advanced.  At that point it does fail before any pool is
created and before any input element is consumed: the trace of the advance
is empty and its outcome is independent of the input iterable. -/
theorem C3_validation_deferred_to_first_advance :
    PoolChain.execute_lazy emptyPoolChain [(), ()]
        = { poolchain := emptyPoolChain, iterable := [(), ()] }
      ∧ (PoolChain.execute_lazy emptyPoolChain [(), ()]).run 0
        = { result := Except.error
              (PyError.validationError "Try adding some workers first.")
            trace := []
            alloc := 0 }
      ∧ ((PoolChain.execute_lazy emptyPoolChain [(), ()]).run 0).result
        = ((PoolChain.execute_lazy emptyPoolChain []).run 0).result :=
  ⟨rfl, rfl, rfl⟩

/-- Claim C9: an `execute_lazy` run over a non-empty stage list creates
exactly one pool per stage, at addresses fresh from the allocator; every
created pool is shut down with `wait=True`; the trace splits into a part
with no shutdown followed by a part with no yield (so every shutdown
happens after the final output element, before the iteration completes);
the allocator is advanced past every created pool; and no pool of this
invocation coincides with a pool created by a subsequent invocation. -/
theorem C9_pool_lifecycle {V : Type} (p : PoolChain V) (xs : List V) (c : Nat)
    (hc : p.chain ≠ []) :
    (∀ s, s < p.chain.length →
        Event.createPool (c + s) s ∈ ((PoolChain.execute_lazy p xs).run c).trace)
      ∧ (∀ pid s,
          Event.createPool pid s ∈ ((PoolChain.execute_lazy p xs).run c).trace →
          pid = c + s ∧ s < p.chain.length)
      ∧ (∀ pid s,
          Event.createPool pid s ∈ ((PoolChain.execute_lazy p xs).run c).trace →
          Event.shutdown pid true ∈ ((PoolChain.execute_lazy p xs).run c).trace)
      ∧ (∃ early late,
          ((PoolChain.execute_lazy p xs).run c).trace = early ++ late
            ∧ (∀ e ∈ early, ∀ pid w, e ≠ Event.shutdown pid w)
            ∧ (∀ e ∈ late, ∀ i, e ≠ Event.yieldOut i))
      ∧ ((PoolChain.execute_lazy p xs).run c).alloc = c + p.chain.length
      ∧ (∀ (q : PoolChain V) (ys : List V) (pid s pid2 s2 : Nat),
          Event.createPool pid s ∈ ((PoolChain.execute_lazy p xs).run c).trace →
          Event.createPool pid2 s2 ∈
            ((PoolChain.execute_lazy q ys).run
              ((PoolChain.execute_lazy p xs).run c).alloc).trace →
          pid ≠ pid2) := by
  have hrun := run_eq_of_ne_nil p xs c hc
  refine ⟨?_, ?_, ?_, ?_, ?_, ?_⟩
  · intro s hs
    rw [hrun]
    exact List.mem_append_left _ (List.mem_append_left _
      (List.mem_map.mpr ⟨s, List.mem_range.mpr hs, rfl⟩))
  · exact fun pid s h => createPool_mem_run_trace p xs c pid s h
  · intro pid s hmem
    obtain ⟨hpid, hs⟩ := createPool_mem_run_trace p xs c pid s hmem
    subst hpid
    rw [hrun]
    exact List.mem_append_right _
      (List.mem_map.mpr ⟨s, List.mem_range.mpr hs, rfl⟩)
  · refine ⟨((List.range p.chain.length).map (fun s => Event.createPool (c + s) s))
        ++ ((List.range xs.length).map (fun i => Event.yieldOut i)),
      (List.range p.chain.length).map (fun s => Event.shutdown (c + s) true),
      by rw [hrun], ?_, ?_⟩
    · intro e he pid w
      rcases List.mem_append.mp he with h | h <;>
        obtain ⟨a, _, rfl⟩ := List.mem_map.mp h <;> simp
    · intro e he i
      obtain ⟨a, _, rfl⟩ := List.mem_map.mp he
      simp
  · rw [hrun]
  · intro q ys pid s pid2 s2 h1 h2
    obtain ⟨hp1, hs1⟩ := createPool_mem_run_trace p xs c pid s h1
    have halloc : ((PoolChain.execute_lazy p xs).run c).alloc
        = c + p.chain.length := by
      rw [hrun]
    rw [halloc] at h2
    obtain ⟨hp2, _⟩ := createPool_mem_run_trace q ys (c + p.chain.length) pid2 s2 h2
    omega

/-- Witness for C9 on a one-stage poolchain. -/
theorem C9_witness :
    onePC.chain ≠ []
      ∧ ((∀ s, s < onePC.chain.length →
          Event.createPool (0 + s) s
            ∈ ((PoolChain.execute_lazy onePC [()]).run 0).trace)
        ∧ (∀ pid s,
            Event.createPool pid s ∈ ((PoolChain.execute_lazy onePC [()]).run 0).trace →
            pid = 0 + s ∧ s < onePC.chain.length)
        ∧ (∀ pid s,
            Event.createPool pid s ∈ ((PoolChain.execute_lazy onePC [()]).run 0).trace →
            Event.shutdown pid true ∈ ((PoolChain.execute_lazy onePC [()]).run 0).trace)
        ∧ (∃ early late,
            ((PoolChain.execute_lazy onePC [()]).run 0).trace = early ++ late
              ∧ (∀ e ∈ early, ∀ pid w, e ≠ Event.shutdown pid w)
              ∧ (∀ e ∈ late, ∀ i, e ≠ Event.yieldOut i))
        ∧ ((PoolChain.execute_lazy onePC [()]).run 0).alloc = 0 + onePC.chain.length
        ∧ (∀ (q : PoolChain Unit) (ys : List Unit) (pid s pid2 s2 : Nat),
            Event.createPool pid s ∈ ((PoolChain.execute_lazy onePC [()]).run 0).trace →
            Event.createPool pid2 s2 ∈
              ((PoolChain.execute_lazy q ys).run
                ((PoolChain.execute_lazy onePC [()]).run 0).alloc).trace →
            pid ≠ pid2)) :=
  ⟨by simp [onePC], C9_pool_lifecycle onePC [()] 0 (by simp [onePC])⟩

/-- Claim C10: with zero stages, `execute_lazy_single_threaded` and
`execute_eager_single_threaded` perform no validation and yield every input
element unchanged (the pipeline is the identity), whereas `execute_eager`
— which drains `execute_lazy` — fails with the `OriValidationError` for an
empty stage list. -/
theorem C10_zero_stages_single_threaded_identity {V : Type} (p : PoolChain V)
    (xs : List V) (c : Nat) (h : p.chain = []) :
    PoolChain.execute_lazy_single_threaded p xs = xs
      ∧ PoolChain.execute_eager_single_threaded p xs = xs
      ∧ PoolChain.execute_eager p xs c
        = Except.error (PyError.validationError "Try adding some workers first.") := by
  have h1 : PoolChain.execute_lazy_single_threaded p xs = xs := by
    simp [PoolChain.execute_lazy_single_threaded, stageComposition, h]
  refine ⟨h1, h1, ?_⟩
  unfold PoolChain.execute_eager
  rw [run_eq_of_nil p xs c h]

/-- Witness for C10 on an empty poolchain. -/
theorem C10_witness :
    emptyPoolChain.chain = []
      ∧ (PoolChain.execute_lazy_single_threaded emptyPoolChain [(), ()] = [(), ()]
        ∧ PoolChain.execute_eager_single_threaded emptyPoolChain [(), ()] = [(), ()]
        ∧ PoolChain.execute_eager emptyPoolChain [(), ()] 0
          = Except.error (PyError.validationError "Try adding some workers first.")) :=
  ⟨rfl, C10_zero_stages_single_threaded_identity emptyPoolChain [(), ()] 0 rfl⟩

end Ori
